import Mathlib

/-!
Verification of the dark-flight propagator (`DFN_DarkFlight.py`,
`DarkFlight_main.py`, `df_functions.py`) against its natural-language
specification.

The Python sources are embedded shallowly: floating-point numbers become
real numbers, numpy vectors of length 3 become the structure `V3`, the
10-component integration state becomes `DFState`, the 1-D atmospheric
sounding becomes `List Layer`, and the stateful `solout` observer of the
adaptive integrator becomes an explicit recording loop over the stream of
accepted steps.

Functions imported by the sources from repository modules that are not
available (`trajectory_utilities`, `atm_functions`, `orbital_utilities`)
are modelled from the specification and carry a doc comment saying so.
External library routines (scipy's `interp1d`, the NRLMSISE-00 reference
atmosphere) are passed in as function parameters, so every theorem holds
for all of their implementations unless it instantiates them explicitly.
-/

namespace DarkFlight

/-! ## Vectors -/

/-- A numpy column vector of length 3 (all coordinates real). -/
@[ext]
structure V3 where
  x : ℝ
  y : ℝ
  z : ℝ

/-- The zero vector. -/
def v0 : V3 := ⟨0, 0, 0⟩

instance : Inhabited V3 := ⟨v0⟩

/-- Componentwise vector addition. -/
def V3.add (a b : V3) : V3 := ⟨a.x + b.x, a.y + b.y, a.z + b.z⟩

/-- Componentwise vector subtraction. -/
def V3.sub (a b : V3) : V3 := ⟨a.x - b.x, a.y - b.y, a.z - b.z⟩

/-- Scalar multiplication of a vector. -/
def V3.smul (c : ℝ) (a : V3) : V3 := ⟨c * a.x, c * a.y, c * a.z⟩

/-- The cross product (`np.cross`). -/
def V3.cross (a b : V3) : V3 :=
  ⟨a.y * b.z - a.z * b.y, a.z * b.x - a.x * b.z, a.x * b.y - a.y * b.x⟩

/-- The Euclidean norm of a 3-vector (`numpy.linalg.norm`). -/
noncomputable def norm3 (a : V3) : ℝ := Real.sqrt (a.x ^ 2 + a.y ^ 2 + a.z ^ 2)

theorem norm3_nonneg (a : V3) : 0 ≤ norm3 a := Real.sqrt_nonneg _

theorem norm3_smul (c : ℝ) (a : V3) : norm3 (V3.smul c a) = |c| * norm3 a := by
  unfold norm3 V3.smul
  have h : (c * a.x) ^ 2 + (c * a.y) ^ 2 + (c * a.z) ^ 2
      = c ^ 2 * (a.x ^ 2 + a.y ^ 2 + a.z ^ 2) := by ring
  rw [h, Real.sqrt_mul (sq_nonneg c), Real.sqrt_sq_eq_abs]

theorem norm3_axis (r : ℝ) (hr : 0 ≤ r) : norm3 ⟨r, 0, 0⟩ = r := by
  unfold norm3
  have h : r ^ 2 + 0 ^ 2 + 0 ^ 2 = r ^ 2 := by ring
  rw [h, Real.sqrt_sq hr]

theorem norm3_zaxis (r : ℝ) (hr : 0 ≤ r) : norm3 ⟨0, 0, r⟩ = r := by
  unfold norm3
  have h : (0:ℝ) ^ 2 + 0 ^ 2 + r ^ 2 = r ^ 2 := by ring
  rw [h, Real.sqrt_sq hr]

theorem norm3_pos (a : V3) (ha : a ≠ v0) : 0 < norm3 a := by
  apply Real.sqrt_pos.mpr
  have h : a.x ≠ 0 ∨ a.y ≠ 0 ∨ a.z ≠ 0 := by
    by_contra hc
    push_neg at hc
    exact ha (by ext <;> simp [hc.1, hc.2.1, hc.2.2, v0])
  rcases h with h | h | h
  · have := (sq_nonneg a.y); have := (sq_nonneg a.z)
    have hx : 0 < a.x ^ 2 := (sq_nonneg a.x).lt_of_ne (Ne.symm (pow_ne_zero 2 h))
    linarith
  · have := (sq_nonneg a.x); have := (sq_nonneg a.z)
    have hy : 0 < a.y ^ 2 := (sq_nonneg a.y).lt_of_ne (Ne.symm (pow_ne_zero 2 h))
    linarith
  · have := (sq_nonneg a.x); have := (sq_nonneg a.y)
    have hz : 0 < a.z ^ 2 := (sq_nonneg a.z).lt_of_ne (Ne.symm (pow_ne_zero 2 h))
    linarith

/-! ## Geodesy and frames

Modelled from the spec: the functions below stand for `ECEF2LLH`,
`ECI2ECEF_pos`, `ECEF2ECI_pos`, `EarthRadius` and `gravity_vector` of the
repository module `trajectory_utilities`, which is not under `src/`.
Spec §4.A: "ECEF↔ECI transforms parameterised by Julian date (accounting
for Earth rotation only)"; "ECEF↔LLH using a WGS84-class ellipsoid"
(realised by Bowring's closed form on the WGS84 ellipsoid); "the Earth
radius at a given geodetic latitude"; "a gravity vector at an ECI position
using a central-body model with μ = 3.986005e14". -/

/-- WGS84 semi-major axis (m). -/
def aWGS : ℝ := 6378137

/-- WGS84 semi-minor axis (m). -/
def bWGS : ℝ := 6356752.3142

/-- First eccentricity squared of the WGS84 ellipsoid. -/
noncomputable def e2 : ℝ := 1 - bWGS ^ 2 / aWGS ^ 2

/-- Second eccentricity squared of the WGS84 ellipsoid. -/
noncomputable def ep2 : ℝ := aWGS ^ 2 / bWGS ^ 2 - 1

/-- Earth rotation rate `OMEGA_EARTH` (rad/s). -/
def omegaEarth : ℝ := 7.2921158553e-5

/-- Earth rotation angle (rad) at a Julian date, measured from J2000.0.
Modelled from the spec: the ECI↔ECEF transform accounts for Earth rotation
only, so the two frames differ by a rotation about the pole whose angle
grows at `omegaEarth` radians per second. -/
noncomputable def eraAngle (t_jd : ℝ) : ℝ := omegaEarth * 86400 * (t_jd - 2451545)

/-- Modelled from the spec: `ECI2ECEF_pos` of `trajectory_utilities`
(not under `src/`): rotate an ECI position about the pole into the
Earth-fixed frame at Julian date `t`. -/
noncomputable def ECI2ECEF_pos (v : V3) (t : ℝ) : V3 :=
  ⟨v.x * Real.cos (eraAngle t) + v.y * Real.sin (eraAngle t),
   -(v.x * Real.sin (eraAngle t)) + v.y * Real.cos (eraAngle t),
   v.z⟩

/-- Modelled from the spec: `ECEF2ECI_pos` of `trajectory_utilities`
(not under `src/`): the inverse rotation of `ECI2ECEF_pos`. -/
noncomputable def ECEF2ECI_pos (v : V3) (t : ℝ) : V3 :=
  ⟨v.x * Real.cos (eraAngle t) - v.y * Real.sin (eraAngle t),
   v.x * Real.sin (eraAngle t) + v.y * Real.cos (eraAngle t),
   v.z⟩

/-- Modelled from the spec: `ECEF2LLH` of `trajectory_utilities` (not under
`src/`): convert an Earth-fixed position (m) to geodetic
(latitude rad, longitude rad, height m) on the WGS84 ellipsoid, by
Bowring's closed form. The result is packed into a `V3` exactly as the
Python function returns a 3-vector. -/
noncomputable def ECEF2LLH (v : V3) : V3 :=
  let p := Real.sqrt (v.x ^ 2 + v.y ^ 2)
  let θ := Real.arctan ((v.z * aWGS) / (p * bWGS))
  let lat := Real.arctan ((v.z + ep2 * bWGS * Real.sin θ ^ 3) /
                          (p - e2 * aWGS * Real.cos θ ^ 3))
  let lon := Real.arctan (v.y / v.x)
  let N := aWGS / Real.sqrt (1 - e2 * Real.sin lat ^ 2)
  ⟨lat, lon, p / Real.cos lat - N⟩

/-- Modelled from the spec: `EarthRadius` of `trajectory_utilities` (not
under `src/`): the Earth radius at a given geodetic latitude on the WGS84
ellipsoid. -/
noncomputable def EarthRadius (lat : ℝ) : ℝ :=
  Real.sqrt (((aWGS ^ 2 * Real.cos lat) ^ 2 + (bWGS ^ 2 * Real.sin lat) ^ 2) /
             ((aWGS * Real.cos lat) ^ 2 + (bWGS * Real.sin lat) ^ 2))

/-- Modelled from the spec: `gravity_vector` of `trajectory_utilities` (not
under `src/`): central-body gravitational acceleration at an ECI position,
μ = 3.986005e14 m³/s². -/
noncomputable def gravity_vector (p : V3) : V3 :=
  V3.smul (-(3.986005e14) / norm3 p ^ 3) p

theorem ECI2ECEF_pos_z (v : V3) (t : ℝ) : (ECI2ECEF_pos v t).z = v.z := rfl

theorem e2_nonneg : 0 ≤ e2 := by
  unfold e2 aWGS bWGS
  norm_num

theorem e2_lt_one : e2 < 1 := by
  unfold e2 aWGS bWGS
  have h : (0:ℝ) < 6356752.3142 ^ 2 / 6378137 ^ 2 := by positivity
  linarith

/-- The geodetic latitude of any Earth-fixed position on the equatorial
plane (`z = 0`) is zero. -/
theorem ECEF2LLH_lat_of_z_eq_zero (v : V3) (hz : v.z = 0) : (ECEF2LLH v).x = 0 := by
  unfold ECEF2LLH
  simp only [hz, zero_mul, zero_div, Real.arctan_zero, Real.sin_zero]
  norm_num

/-- `ECEF2LLH` on a point of the positive x-axis: latitude 0, longitude 0,
height the distance from the ellipsoid's equator. -/
theorem ECEF2LLH_xaxis (r : ℝ) (hr : 0 ≤ r) :
    ECEF2LLH ⟨r, 0, 0⟩ = ⟨0, 0, r - aWGS⟩ := by
  unfold ECEF2LLH
  have hp : Real.sqrt (r ^ 2 + 0 ^ 2) = r := by
    rw [show r ^ 2 + (0:ℝ) ^ 2 = r ^ 2 by ring, Real.sqrt_sq hr]
  simp only [hp, zero_mul, zero_div, Real.arctan_zero, Real.sin_zero, Real.cos_zero]
  norm_num [Real.sqrt_one]

/-- The Earth radius at latitude zero is the semi-major axis. -/
theorem EarthRadius_zero : EarthRadius 0 = aWGS := by
  unfold EarthRadius
  rw [Real.cos_zero, Real.sin_zero]
  have hne : ((aWGS * 1) ^ 2 + (bWGS * 0) ^ 2) ≠ 0 := by
    unfold aWGS bWGS; norm_num
  have h : ((aWGS ^ 2 * 1) ^ 2 + (bWGS ^ 2 * 0) ^ 2) /
      ((aWGS * 1) ^ 2 + (bWGS * 0) ^ 2) = aWGS ^ 2 := by
    rw [div_eq_iff hne]; ring
  rw [h, Real.sqrt_sq (by unfold aWGS; norm_num)]

/-- Feeding a point of the polar axis (in particular, a geodetic triple
reinterpreted as Earth-fixed coordinates, whose horizontal components are
radians) into `ECEF2LLH` yields a height at or below `-aWGS`. -/
theorem ECEF2LLH_z_zaxis_le (c : ℝ) : (ECEF2LLH ⟨0, 0, c⟩).z ≤ -aWGS := by
  unfold ECEF2LLH
  have hp : Real.sqrt ((0:ℝ) ^ 2 + 0 ^ 2) = 0 := by
    norm_num
  simp only [hp]
  set lat := Real.arctan ((c + ep2 * bWGS * Real.sin (Real.arctan (c * aWGS / (0 * bWGS))) ^ 3) /
      (0 - e2 * aWGS * Real.cos (Real.arctan (c * aWGS / (0 * bWGS))) ^ 3)) with hlat
  have hw0 : 0 < 1 - e2 * Real.sin lat ^ 2 := by
    have h1 : e2 * Real.sin lat ^ 2 ≤ e2 * 1 :=
      mul_le_mul_of_nonneg_left (Real.sin_sq_le_one lat) e2_nonneg
    have := e2_lt_one
    linarith
  have hw1 : Real.sqrt (1 - e2 * Real.sin lat ^ 2) ≤ 1 := by
    apply Real.sqrt_le_one.mpr
    have : 0 ≤ e2 * Real.sin lat ^ 2 := mul_nonneg e2_nonneg (sq_nonneg _)
    linarith
  have hwpos : 0 < Real.sqrt (1 - e2 * Real.sin lat ^ 2) := Real.sqrt_pos.mpr hw0
  have hN : aWGS ≤ aWGS / Real.sqrt (1 - e2 * Real.sin lat ^ 2) := by
    rw [le_div_iff₀ hwpos]
    have ha : (0:ℝ) ≤ aWGS := by unfold aWGS; norm_num
    nlinarith
  have hz : (0:ℝ) / Real.cos lat = 0 := zero_div _
  simp only [hz]
  linarith

/-! ## Atmosphere sampler (`df_functions.py`) -/

open scoped Classical

/-- One row of a 1-D vertical sounding (`WindData` columns
`# Height, TempK, Press, RHum, Wind, WDir`). -/
structure Layer where
  height : ℝ
  tempK : ℝ
  press : ℝ
  rhum : ℝ
  wind : ℝ
  wdir : ℝ

/-- The default layer used to totalise partial list operations. -/
def dLayer : Layer := ⟨0, 0, 0, 0, 0, 0⟩

instance : Inhabited Layer := ⟨dLayer⟩

/-- The result of one atmosphere query: wind vector in the ECI frame,
air density, temperature. -/
structure AtmOut where
  wind : V3
  rho_a : ℝ
  temp : ℝ

/-- `density_from_pressure` of `df_functions.py`: air density from
temperature (K), pressure (Pa) and relative humidity (0-1) via the Wobus
saturation-vapour-pressure polynomial. -/
noncomputable def density_from_pressure (temperature pressure RH : ℝ) : ℝ :=
  let p := 0.99999683 + temperature * (-0.90826951e-2 + temperature * (
           0.78736169e-4 + temperature * (-0.61117958e-6 + temperature * (
           0.43884187e-8 + temperature * (-0.29883885e-10 + temperature * (
           0.21874425e-12 + temperature * (-0.17892321e-14 + temperature * (
           0.11112018e-16 + temperature * (-0.30994571e-19)))))))))
  let sat_vp := 6.1078 / p ^ 8
  let Pv := sat_vp * RH
  (pressure / (287.05 * temperature)) * (1 - 0.378 * Pv / pressure)

/-- The layer `np.argmax(WindData['# Height'])` points at: the first layer
of maximal height. -/
noncomputable def topLayer : List Layer → Layer
  | [] => dLayer
  | [L] => L
  | L :: M :: rest =>
    let T := topLayer (M :: rest)
    if T.height ≤ L.height then L else T

/-- The layer `np.argmin(WindData['# Height'])` points at: the first layer
of minimal height. -/
noncomputable def bottomLayer : List Layer → Layer
  | [] => dLayer
  | [L] => L
  | L :: M :: rest =>
    let B := bottomLayer (M :: rest)
    if L.height ≤ B.height then L else B

/-- `max(WindData['# Height'])`. -/
noncomputable def maxHeight (S : List Layer) : ℝ := (topLayer S).height

/-- `min(WindData['# Height'])`. -/
noncomputable def minHeight (S : List Layer) : ℝ := (bottomLayer S).height

/-- The rotational wind component in the ECI frame: `OMEGA_EARTH` times the
ECI image of the ECEF North Pole, normalised, crossed with the query
position (`AtmosphericModel`, `df_functions.py` lines 69-72). -/
noncomputable def earthRotVel (posECI : V3) (t_jd : ℝ) : V3 :=
  let npECI := ECEF2ECI_pos ⟨0, 0, 6356752.31e0⟩ t_jd
  let angRot := V3.smul (omegaEarth / norm3 npECI) npECI
  V3.cross angRot posECI

/-- The `C_ENU2ECI` rotation of `AtmosphericModel` applied to an ENU wind
vector (`df_functions.py` lines 117-121). -/
noncomputable def enu2eciWind (lat lon : ℝ) (w : V3) : V3 :=
  ⟨-Real.sin lon * w.x + (-(Real.sin lat * Real.cos lon)) * w.y +
     Real.cos lat * Real.cos lon * w.z,
   Real.cos lon * w.x + (-(Real.sin lat * Real.sin lon)) * w.y +
     Real.cos lat * Real.sin lon * w.z,
   0 * w.x + Real.cos lat * w.y + Real.sin lat * w.z⟩

/-- Interpolation of one sounding column against height, standing for
`scipy.interpolate.interp1d(heights, column, kind='cubic')(h)`. The
interpolation kernel `interp` is an explicit parameter: every theorem
quantifying over it holds for any interpolation scheme. -/
noncomputable def interpField (interp : List (ℝ × ℝ) → ℝ → ℝ)
    (S : List Layer) (f : Layer → ℝ) (h : ℝ) : ℝ :=
  interp (S.map (fun L => (L.height, f L))) h

/-- `AtmosphericModel` of `df_functions.py`. `nrlmsise` stands for the
`NRLMSISE_00` reference atmosphere of `orbital_utilities` (not under
`src/`), passed as a parameter mapping a geodetic position and Julian date
to (temperature, pressure, density). Note lines 77-78 of the source: in
the sounding branch the geodetic position is computed as
`ECEF2LLH(ECEF2LLH(Pos_ECI))`, i.e. `ECEF2LLH` is applied twice to the ECI
query, not `ECI2ECEF` then `ECEF2LLH`; the embedding reproduces this. -/
noncomputable def AtmosphericModel (nrlmsise : V3 → ℝ → ℝ × ℝ × ℝ)
    (interp : List (ℝ × ℝ) → ℝ → ℝ) (WindData : List Layer)
    (posECI : V3) (t_jd : ℝ) : AtmOut :=
  let v_rot := earthRotVel posECI t_jd
  if WindData = [] then
    let posECEF := ECI2ECEF_pos posECI t_jd
    let posLLH := ECEF2LLH posECEF
    let r := nrlmsise posLLH t_jd
    ⟨v_rot, r.2.2, r.1⟩
  else
    let posLLH := ECEF2LLH (ECEF2LLH posECI)
    let h := posLLH.z
    let L : Layer :=
      if maxHeight WindData < h then topLayer WindData
      else if minHeight WindData ≤ h then
        ⟨h, interpField interp WindData Layer.tempK h,
            interpField interp WindData Layer.press h,
            interpField interp WindData Layer.rhum h,
            interpField interp WindData Layer.wind h,
            interpField interp WindData Layer.wdir h⟩
      else bottomLayer WindData
    let rho_a := density_from_pressure L.tempK L.press L.rhum
    let wENU : V3 := ⟨-(L.wind * Real.sin (Real.pi / 180 * L.wdir)),
                      -(L.wind * Real.cos (Real.pi / 180 * L.wdir)), 0⟩
    ⟨V3.add (enu2eciWind posLLH.x posLLH.y wENU) v_rot, rho_a, L.tempK⟩

/-- The 1-D atmosphere selection of `EarthDynamics` in `DFN_DarkFlight.py`
(lines 76-81): the geodetic height of the query (computed correctly there,
via `ECI2ECEF_pos` then `ECEF2LLH`) is checked against the sounding top,
and queries above it go to the reference model (empty `WindData`). -/
noncomputable def dfnAtmSelect1D (nrlmsise : V3 → ℝ → ℝ × ℝ × ℝ)
    (interp : List (ℝ × ℝ) → ℝ → ℝ) (WindData : List Layer)
    (posECI : V3) (t_jd : ℝ) : AtmOut :=
  let posLLH := ECEF2LLH (ECI2ECEF_pos posECI t_jd)
  if maxHeight WindData < posLLH.z then AtmosphericModel nrlmsise interp [] posECI t_jd
  else AtmosphericModel nrlmsise interp WindData posECI t_jd

/-- The 1-D atmosphere selection of `EarthDynamics` in `DarkFlight_main.py`
(lines 88-89): `AtmosphericModel` is called directly on the sounding, with
no height guard. -/
noncomputable def mainAtmSelect1D (nrlmsise : V3 → ℝ → ℝ × ℝ × ℝ)
    (interp : List (ℝ × ℝ) → ℝ → ℝ) (WindData : List Layer)
    (posECI : V3) (t_jd : ℝ) : AtmOut :=
  AtmosphericModel nrlmsise interp WindData posECI t_jd

/-! ## Dynamics (`EarthDynamics`) -/

/-- The 10-component integration state `X` of `EarthDynamics`:
ECI position (indices 0-2), ECI velocity (3-5), mass (6), bulk density
(7), shape factor (8), mass-loss coefficient (9). The per-particle
statistical weight is carried outside the integrated state (it is stripped
off before `Propagate` is called). The same structure is reused for the
state rate `X_dot`. -/
structure DFState where
  pos : V3
  vel : V3
  mass : ℝ
  rho : ℝ
  shape : ℝ
  c_ml : ℝ

/-- The default state used to totalise partial list operations. -/
def dState : DFState := ⟨v0, v0, 0, 0, 0, 0⟩

instance : Inhabited DFState := ⟨dState⟩

/-- The mass-loss rate `dm_dt` of `EarthDynamics`
(`DFN_DarkFlight.py` line 106, `DarkFlight_main.py` line 124):
`-c_ml * A * rho_a * v^3 * M^(2/3) / (2 * rho^(2/3))`. -/
noncomputable def massRate (c_ml A rho_a v M rho : ℝ) : ℝ :=
  -c_ml * A * rho_a * v ^ 3 * M ^ ((2:ℝ)/3) / (2 * rho ^ ((2:ℝ)/3))

/-- `EarthDynamics` of `DFN_DarkFlight.py` (lines 57-119): the state rate
at `(t, X)`. The atmosphere query is the parameter `atm` (the selection
among sounding / 3-D grid / reference model embedded separately);
`drag` stands for `dragcoeff` of `atm_functions` (not under `src/`),
mapping `(v, temp, rho_a, A)` to the drag coefficient. -/
noncomputable def earthDynamics (atm : V3 → ℝ → AtmOut)
    (drag : ℝ → ℝ → ℝ → ℝ → ℝ) (t : ℝ) (X : DFState) (t0 : ℝ) : DFState :=
  let t_jd := t0 + t / (24*60*60)
  let a_grav := gravity_vector X.pos
  let o := atm X.pos t_jd
  let v_rel := V3.sub X.vel o.wind
  let v := norm3 v_rel
  let cd := drag v o.temp o.rho_a X.shape
  let a_drag := V3.smul (-cd * X.shape * o.rho_a * v /
      (2 * X.mass ^ ((1:ℝ)/3) * X.rho ^ ((2:ℝ)/3))) v_rel
  let a_tot := V3.add a_grav a_drag
  ⟨X.vel, a_tot, massRate X.c_ml X.shape o.rho_a v X.mass X.rho, 0, 0, 0⟩

/-- `EarthDynamics` of `DarkFlight_main.py` (lines 73-138), which adds a
lift acceleration with coefficient `cl` along
`cross(a_grav, v_rel)/norm(cross(a_grav, v_rel))`. -/
noncomputable def earthDynamicsLift (atm : V3 → ℝ → AtmOut)
    (drag : ℝ → ℝ → ℝ → ℝ → ℝ) (cl : ℝ) (t : ℝ) (X : DFState) (t0 : ℝ) : DFState :=
  let t_jd := t0 + t / (24*60*60)
  let a_grav := gravity_vector X.pos
  let o := atm X.pos t_jd
  let v_rel := V3.sub X.vel o.wind
  let v := norm3 v_rel
  let cd := drag v o.temp o.rho_a X.shape
  let a_drag := V3.smul (-cd * X.shape * o.rho_a * v /
      (2 * X.mass ^ ((1:ℝ)/3) * X.rho ^ ((2:ℝ)/3))) v_rel
  let crossGV := V3.cross a_grav v_rel
  let n_lift := V3.smul (1 / norm3 crossGV) crossGV
  let a_lift := V3.smul (cl * X.shape * o.rho_a * v ^ 2 /
      (2 * X.mass ^ ((1:ℝ)/3) * X.rho ^ ((2:ℝ)/3))) n_lift
  let a_tot := V3.add (V3.add a_grav a_drag) a_lift
  ⟨X.vel, a_tot, massRate X.c_ml X.shape o.rho_a v X.mass X.rho, 0, 0, 0⟩

/-! ## Mass-loss coefficient at initialisation (`InitialiseParams`) -/

/-- Modelled from the spec: `cd_hypersonic` of `atm_functions` (not under
`src/`); §4.C: "`Cd_hypersonic(A)` returns a shape-dependent constant
high-Mach drag coefficient (e.g. 2.0 for sphere-like bodies)". The spec
documents no other value, so the constant 2.0 is used. -/
def cd_hypersonic (_A : ℝ) : ℝ := 2.0

/-- The mass-loss coefficient assigned by `InitialiseParams` of
`DFN_DarkFlight.py` (lines 357-372): a zero-initialised value overwritten
by each matching density-band mask in source order. -/
noncomputable def initialiseParams_c_ml (rho shape : ℝ) : ℝ :=
  let cd_hyp := cd_hypersonic shape
  let c : ℝ := 0
  let c := if 5000 < rho then 0.07e-6 * cd_hyp else c
  let c := if 2500 < rho ∧ rho ≤ 5000 then 0.014e-6 * cd_hyp else c
  let c := if 1500 < rho ∧ rho ≤ 2500 then 0.042e-6 * cd_hyp else c
  if rho ≤ 1500 then 0.1e-6 * cd_hyp else c

/-- The mass-loss coefficient assigned by `InitialiseParams` of
`DarkFlight_main.py` (lines 220-227): `0.042e-6 * cd_hypersonic(A)` for
every bulk density. -/
noncomputable def mainInitialiseParams_c_ml (_rho shape : ℝ) : ℝ :=
  0.042e-6 * cd_hypersonic shape

/-- The piecewise-constant σ of the claim (and spec §4.C), written from
the spec's words for comparison with the source's assignment. -/
noncomputable def claimSigma (rho : ℝ) : ℝ :=
  if 5000 < rho then 0.07e-6
  else if 2500 < rho then 0.014e-6
  else if 1500 < rho then 0.042e-6
  else 0.1e-6

/-! ## Monte-Carlo wind perturbation (`Propagate`, `DFN_DarkFlight.py`
lines 420-433) -/

/-- A draw of `np.random.uniform(lo, hi)` realised from a unit sample
`u ∈ [0, 1]`. -/
def uniformDraw (lo hi u : ℝ) : ℝ := lo + u * (hi - lo)

/-- `np.mod x m` on reals: `x - m * floor (x / m)`. -/
noncomputable def npMod (x m : ℝ) : ℝ := x - m * (⌊x / m⌋ : ℤ)

/-- The Monte-Carlo perturbation of one sounding layer
(`DFN_DarkFlight.py` lines 424-426): the wind speed is offset by
`uniform(-windspd_err, windspd_err)`; the wind direction by
`uniform(-windspd_err, winddir_err)` — note the lower bound — and the
result is reduced mod 360. `u` and `v` are the unit samples of the two
independent draws. -/
noncomputable def perturbLayerMC (windspd_err winddir_err u v : ℝ) (L : Layer) : Layer :=
  { L with wind := L.wind + uniformDraw (-windspd_err) windspd_err u,
           wdir := npMod (L.wdir + uniformDraw (-windspd_err) winddir_err v) 360 }

/-- The whole-sounding Monte-Carlo perturbation: every layer is offset
independently (`us i`, `vs i` are the unit samples of layer `i`'s two
draws). -/
noncomputable def perturbSoundingMC (windspd_err winddir_err : ℝ)
    (us vs : ℕ → ℝ) (S : List Layer) : List Layer :=
  S.mapIdx (fun i L => perturbLayerMC windspd_err winddir_err (us i) (vs i) L)

/-- The wind components of a 3-D grid, indexed by an abstract cell index
`ι` (a flattened `[z, y, x]` index): entries 3 (east), 4 (north) and
5 (up) of `WindArray`. -/
structure Grid3 (ι : Type) where
  weast : ι → ℝ
  wnorth : ι → ℝ
  wup : ι → ℝ

/-- The 3-D Monte-Carlo wind perturbation (`DFN_DarkFlight.py` lines
427-433): entries 3 and 4 are offset cell-by-cell by independent
`uniform(-windspd_err, windspd_err)` draws; entry 5 (the vertical wind) is
left untouched. -/
noncomputable def perturbGridMC {ι : Type} (windspd_err : ℝ)
    (uE uN : ι → ℝ) (g : Grid3 ι) : Grid3 ι :=
  ⟨fun c => g.weast c + uniformDraw (-windspd_err) windspd_err (uE c),
   fun c => g.wnorth c + uniformDraw (-windspd_err) windspd_err (uN c),
   g.wup⟩

/-! ## Recording loop and terminal event (`Propagate` and `solout`) -/

/-- One recorded integration sample: the time stamp and the state. In the
recording loop the time is the integrator-relative time `t` (seconds); in
the backtrack it is the absolute Julian date, exactly as in `Propagate`
where `T_rel` is converted to `T` before the backtrack. -/
structure Sample where
  t : ℝ
  state : DFState

/-- The default sample used to totalise partial list operations. -/
def dSample : Sample := ⟨0, dState⟩

instance : Inhabited Sample := ⟨dSample⟩

/-- The recording behaviour of `solout` under scipy's `dopri5` driver:
each accepted step is appended to the recorded trajectory first, and the
integration stops when the observer returns -1. `steps` is the stream of
accepted steps the integrator would produce; `term` is the observer's
termination predicate. -/
noncomputable def recordLoop (term : Sample → Prop) : List Sample → List Sample
  | [] => []
  | s :: rest => if term s then [s] else s :: recordLoop term rest

/-- The termination predicate of `solout` in `Propagate`
(`DFN_DarkFlight.py` lines 442-463), for a constant ground height
`h_ground`: the integration ends when the ECI radius drops below
`EarthRadius(lat) + h_ground` or the mass drops below 1 g. (The
`DarkFlight_main.py` variant adds a third branch for `mass < 0`, which is
subsumed by `mass < 1e-3`.) -/
noncomputable def soloutTerm (h_ground t0 : ℝ) (s : Sample) : Prop :=
  let posECF := ECI2ECEF_pos s.state.pos (t0 + s.t / (24*60*60))
  let llh := ECEF2LLH posECF
  let r_end := EarthRadius llh.x + h_ground
  norm3 s.state.pos < r_end ∨ s.state.mass < 1e-3

/-- Linear interpolation of the full state,
`X_prev + f * (X_last - X_prev)`. -/
noncomputable def lerpState (p l : DFState) (f : ℝ) : DFState :=
  ⟨V3.add p.pos (V3.smul f (V3.sub l.pos p.pos)),
   V3.add p.vel (V3.smul f (V3.sub l.vel p.vel)),
   p.mass + f * (l.mass - p.mass),
   p.rho + f * (l.rho - p.rho),
   p.shape + f * (l.shape - p.shape),
   p.c_ml + f * (l.c_ml - p.c_ml)⟩

/-- Linear interpolation of a full sample (state and time). -/
noncomputable def lerpSample (p l : Sample) (f : ℝ) : Sample :=
  ⟨p.t + f * (l.t - p.t), lerpState p.state l.state f⟩

/-- The ground backtrack at the end of `Propagate` (`DFN_DarkFlight.py`
lines 480-495), for a constant ground height: with `p_prev, p_last` the
last two recorded samples, `r_end = EarthRadius(lat_last) + h_ground`
computed from the last sample, and
`f = (|p_prev| - r_end) / (|p_prev| - |p_last|)`, the last sample is
replaced by the interpolation of the last two by `f` — but only when the
trajectory holds more than one sample. Sample times are absolute Julian
dates here. -/
noncomputable def backtrackDFN (h_ground : ℝ) (traj : List Sample) : List Sample :=
  if 2 ≤ traj.length then
    let l := traj.getLastD dSample
    let p := traj.dropLast.getLastD dSample
    let lt := (ECEF2LLH (ECI2ECEF_pos l.state.pos l.t)).x
    let r_end := EarthRadius lt + h_ground
    let f := (norm3 p.state.pos - r_end) / (norm3 p.state.pos - norm3 l.state.pos)
    traj.dropLast ++ [lerpSample p l f]
  else traj

/-! ## Worker partition (`__main__`, `DFN_DarkFlight.py` lines 878-901,
`DarkFlight_main.py` line 571) -/

/-- The per-worker particle counts: `n = [N//size]*size; n[:(N%size)] += 1`,
i.e. the first `N mod W` workers get `N/W + 1` particles and the rest get
`N/W`. -/
def partitionCounts (N W : ℕ) : List ℕ :=
  List.replicate (N % W) (N / W + 1) ++ List.replicate (W - N % W) (N / W)

/-- The offset of worker `i`'s contiguous block (the `displacements` of
`Scatterv`, divided by the per-particle state size). -/
def blockStart (counts : List ℕ) (i : ℕ) : ℕ := (counts.take i).sum

/-- The contiguous block of particles scattered to worker `i`. -/
def blockOf {α : Type} (xs : List α) (counts : List ℕ) (i : ℕ) : List α :=
  (xs.drop (blockStart counts i)).take (counts.getD i 0)

/-! ## Helper lemmas for the worker partition -/

theorem ceil_div_of_mod_pos (N W : ℕ) (hW : 0 < W) (hr : 0 < N % W) :
    (N + W - 1) / W = N / W + 1 := by
  have h1 := Nat.div_add_mod N W
  have hr1 : 1 ≤ N % W := hr
  have hN : 1 ≤ N := by
    calc 1 ≤ N % W := hr1
    _ ≤ W * (N / W) + N % W := Nat.le_add_left _ _
    _ = N := h1
  have e1 : N - 1 = (N % W - 1) + W * (N / W) := by
    conv_lhs => rw [← h1]
    rw [Nat.add_sub_assoc hr1, Nat.add_comm]
  have e2 : (N - 1) / W = N / W := by
    rw [e1, Nat.add_mul_div_left _ _ hW,
      Nat.div_eq_of_lt (lt_of_le_of_lt (Nat.sub_le _ _) (Nat.mod_lt _ hW)), Nat.zero_add]
  rw [Nat.sub_add_comm hN, Nat.add_div_right _ hW, e2]

theorem partitionCounts_sum (N W : ℕ) (hW : 0 < W) : (partitionCounts N W).sum = N := by
  unfold partitionCounts
  rw [List.sum_append, List.sum_replicate, List.sum_replicate, smul_eq_mul, smul_eq_mul]
  have hdm := Nat.div_add_mod N W
  have hrW : N % W ≤ W := le_of_lt (Nat.mod_lt N hW)
  have h1 : N % W * (N / W) ≤ W * (N / W) := Nat.mul_le_mul_right _ hrW
  rw [Nat.mul_add, Nat.sub_mul, mul_one]
  generalize hA : N % W * (N / W) = A at *
  generalize hB : W * (N / W) = B at *
  omega

/-! ## Concrete inputs used by counterexamples and witnesses -/

/-- A concrete sounding layer (height 5000 m, wind 10 m/s from due
south). -/
def mcLayer : Layer := ⟨5000, 270, 50000, 0.3, 10, 180⟩

/-- A concrete one-cell 3-D wind grid. -/
def mcGrid : Grid3 Unit := ⟨fun _ => 3, fun _ => 4, fun _ => 5⟩

theorem floor_of_178_div_360 : (⌊(178:ℝ) / 360⌋ : ℤ) = 0 := by
  rw [Int.floor_eq_zero_iff]
  constructor <;> norm_num

theorem floor_of_180_div_360 : (⌊(180:ℝ) / 360⌋ : ℤ) = 0 := by
  rw [Int.floor_eq_zero_iff]
  constructor <;> norm_num

/-! ## Claims C5, C6, C8, C9 -/

/-- C5 (counterexample): the claim asserts the density-banded σ for every
particle initialisation, citing both variants; but `InitialiseParams` of
`DarkFlight_main.py` assigns `0.042e-6 * cd_hyp` regardless of bulk
density. At bulk density 1000 kg/m³ the claim's band gives
`0.1e-6 * Cd_hyp`, while that variant assigns `0.042e-6 * Cd_hyp`. -/
theorem c5_counterexample :
    mainInitialiseParams_c_ml 1000 1.21 ≠ claimSigma 1000 * cd_hypersonic 1.21 := by
  unfold mainInitialiseParams_c_ml claimSigma cd_hypersonic
  norm_num

/-- C5 (amended): in the `DFN_DarkFlight.py` variant the mass-loss
coefficient assigned at initialisation is exactly the claim's piecewise σ
(0.07e-6 above 5000, 0.014e-6 on (2500, 5000], 0.042e-6 on (1500, 2500],
0.1e-6 at or below 1500) times the hypersonic drag coefficient of the
shape; the `DarkFlight_main.py` variant instead uses 0.042e-6 always. -/
theorem c5_massloss_bands (rho shape : ℝ) :
    initialiseParams_c_ml rho shape = claimSigma rho * cd_hypersonic shape := by
  simp only [initialiseParams_c_ml, claimSigma]
  rcases le_or_lt rho 1500 with h1 | h1
  · rw [if_pos h1, if_neg (not_lt.mpr (by linarith : rho ≤ 5000)),
      if_neg (not_lt.mpr (by linarith : rho ≤ 2500)), if_neg (not_lt.mpr h1)]
  · rcases le_or_lt rho 2500 with h2 | h2
    · rw [if_neg (not_le.mpr h1), if_pos (And.intro h1 h2),
        if_neg (not_lt.mpr (by linarith : rho ≤ 5000)), if_neg (not_lt.mpr h2), if_pos h1]
    · rcases le_or_lt rho 5000 with h3 | h3
      · rw [if_neg (not_le.mpr (by linarith : 1500 < rho)),
          if_neg (fun hc => absurd hc.2 (not_le.mpr h2)), if_pos (And.intro h2 h3),
          if_neg (not_lt.mpr h3), if_pos h2]
      · rw [if_neg (not_le.mpr (by linarith : 1500 < rho)),
          if_neg (fun hc => absurd hc.2 (not_le.mpr (by linarith : 2500 < rho))),
          if_neg (fun hc => absurd hc.2 (not_le.mpr h3)), if_pos h3, if_pos h3]

/-- C8: both variants of the dynamics function return a state rate whose
bulk-density, shape-factor and mass-loss-coefficient components are
identically zero, for every atmosphere sampler, drag model, lift
coefficient, state and time; the statistical weight is not part of the
integrated state (`DFState`) at all. -/
theorem c8_constant_params (atm : V3 → ℝ → AtmOut) (drag : ℝ → ℝ → ℝ → ℝ → ℝ)
    (cl t t0 : ℝ) (X : DFState) :
    ((earthDynamics atm drag t X t0).rho = 0 ∧
     (earthDynamics atm drag t X t0).shape = 0 ∧
     (earthDynamics atm drag t X t0).c_ml = 0) ∧
    ((earthDynamicsLift atm drag cl t X t0).rho = 0 ∧
     (earthDynamicsLift atm drag cl t X t0).shape = 0 ∧
     (earthDynamicsLift atm drag cl t X t0).c_ml = 0) :=
  ⟨⟨rfl, rfl, rfl⟩, ⟨rfl, rfl, rfl⟩⟩

/-- C9: with `N ≥ 1` particles and `W ≥ 1` workers, the computed partition
has one count per worker, each count is `⌊N/W⌋` or `⌈N/W⌉ = (N+W-1)/W`,
the counts sum to exactly `N`, and a worker whose count is zero receives
an empty contiguous block (it contributes no particles; the source exits
such a worker before the scatter). -/
theorem c9_worker_partition (N W : ℕ) (_hN : 1 ≤ N) (hW : 1 ≤ W) :
    (partitionCounts N W).length = W ∧
    (partitionCounts N W).sum = N ∧
    (∀ c ∈ partitionCounts N W, c = N / W ∨ c = (N + W - 1) / W) ∧
    (∀ (xs : List ℕ) (i : ℕ), (partitionCounts N W).getD i 0 = 0 →
      blockOf xs (partitionCounts N W) i = []) := by
  have hW0 : 0 < W := hW
  refine ⟨?_, partitionCounts_sum N W hW0, ?_, ?_⟩
  · unfold partitionCounts
    rw [List.length_append, List.length_replicate, List.length_replicate]
    have := Nat.mod_lt N hW0
    omega
  · intro c hc
    unfold partitionCounts at hc
    rcases List.mem_append.mp hc with h | h
    · rcases List.mem_replicate.mp h with ⟨hn0, hc2⟩
      right
      have hrpos : 0 < N % W := Nat.pos_of_ne_zero hn0
      rw [hc2, ceil_div_of_mod_pos N W hW0 hrpos]
    · exact Or.inl (List.eq_of_mem_replicate h)
  · intro xs i h
    unfold blockOf
    rw [h, List.take_zero]

/-- C9 witness: the partition of 5 particles over 3 workers. -/
theorem c9_worker_partition_witness :
    (1 ≤ 5 ∧ 1 ≤ 3) ∧
    ((partitionCounts 5 3).length = 3 ∧
     (partitionCounts 5 3).sum = 5 ∧
     (∀ c ∈ partitionCounts 5 3, c = 5 / 3 ∨ c = (5 + 3 - 1) / 3) ∧
     (∀ (xs : List ℕ) (i : ℕ), (partitionCounts 5 3).getD i 0 = 0 →
       blockOf xs (partitionCounts 5 3) i = [])) :=
  ⟨⟨by norm_num, by norm_num⟩, c9_worker_partition 5 3 (by norm_num) (by norm_num)⟩

/-- C6 (counterexample): the claim says the wind direction of each layer
is offset by a symmetric uniform draw from `[-winddir_err, +winddir_err]`
and the 3-D vertical component analogously from
`[-wind_err, +wind_err]`. With `winddir_err = 0` (the value hard-wired in
`__main__` of `DFN_DarkFlight.py`) and `wind_err = 2` the claimed
direction offset is forced to 0, leaving 180°; but the source draws the
direction offset from `uniform(-windspd_err, winddir_err) = [-2, 0]`, and
at unit sample 0 produces 178°. Moreover the source never perturbs the
vertical grid component, while the claimed analogous offset at unit
sample 1 would change it. -/
theorem c6_counterexample :
    (perturbLayerMC 2 0 0 0 mcLayer).wdir = 178 ∧
    npMod (mcLayer.wdir + 0) 360 = 180 ∧
    ((178:ℝ) ≠ 180) ∧
    (perturbGridMC 2 (fun _ => 1) (fun _ => 1) mcGrid).wup () = mcGrid.wup () ∧
    mcGrid.wup () + uniformDraw (-2) 2 1 ≠ mcGrid.wup () := by
  refine ⟨?_, ?_, by norm_num, rfl, ?_⟩
  · show npMod (mcLayer.wdir + uniformDraw (-2) 0 0) 360 = 178
    have h : mcLayer.wdir + uniformDraw (-2) 0 0 = 178 := by
      unfold mcLayer uniformDraw; norm_num
    rw [h]
    unfold npMod
    rw [floor_of_178_div_360]
    norm_num
  · have h : mcLayer.wdir + 0 = 180 := by unfold mcLayer; norm_num
    rw [h]
    unfold npMod
    rw [floor_of_180_div_360]
    norm_num
  · unfold mcGrid uniformDraw
    norm_num

/-- C6 (amended): per layer, the wind-speed offset is a symmetric uniform
draw from `[-wind_err, +wind_err]`; the wind-direction offset is a draw
from the asymmetric interval `[-wind_err, +winddir_err]` (the lower bound
uses the speed error), reduced mod 360; per 3-D grid cell, the east and
north components are offset by independent symmetric uniform draws from
`[-wind_err, +wind_err]` and the vertical component is left unperturbed. -/
theorem c6_wind_perturbation (we wd u v : ℝ) (L : Layer)
    (hwe : 0 ≤ we) (hu0 : 0 ≤ u) (hu1 : u ≤ 1) :
    |(perturbLayerMC we wd u v L).wind - L.wind| ≤ we ∧
    (perturbLayerMC we wd u v L).wdir
      = npMod (L.wdir + uniformDraw (-we) wd v) 360 ∧
    (0 ≤ v → v ≤ 1 → -we ≤ wd →
      -we ≤ uniformDraw (-we) wd v ∧ uniformDraw (-we) wd v ≤ wd) ∧
    (∀ (ι : Type) (uE uN : ι → ℝ) (g : Grid3 ι) (c : ι),
      (0 ≤ uE c → uE c ≤ 1 →
        |(perturbGridMC we uE uN g).weast c - g.weast c| ≤ we) ∧
      (0 ≤ uN c → uN c ≤ 1 →
        |(perturbGridMC we uE uN g).wnorth c - g.wnorth c| ≤ we) ∧
      (perturbGridMC we uE uN g).wup c = g.wup c) := by
  refine ⟨?_, rfl, ?_, ?_⟩
  · show |L.wind + uniformDraw (-we) we u - L.wind| ≤ we
    unfold uniformDraw
    rw [abs_le]
    constructor <;> nlinarith
  · intro hv0 hv1 hwd
    unfold uniformDraw
    constructor <;> nlinarith
  · intro ι uE uN g c
    refine ⟨?_, ?_, rfl⟩
    · intro h0 h1
      show |g.weast c + uniformDraw (-we) we (uE c) - g.weast c| ≤ we
      unfold uniformDraw
      rw [abs_le]
      constructor <;> nlinarith
    · intro h0 h1
      show |g.wnorth c + uniformDraw (-we) we (uN c) - g.wnorth c| ≤ we
      unfold uniformDraw
      rw [abs_le]
      constructor <;> nlinarith

/-- C6 witness: the amended statement at `wind_err = 2`,
`winddir_err = 1`, unit samples 1/2. -/
theorem c6_wind_perturbation_witness :
    ((0:ℝ) ≤ 2 ∧ (0:ℝ) ≤ 1/2 ∧ (1:ℝ)/2 ≤ 1) ∧
    (|(perturbLayerMC 2 1 (1/2) (1/2) mcLayer).wind - mcLayer.wind| ≤ 2 ∧
     (perturbLayerMC 2 1 (1/2) (1/2) mcLayer).wdir
       = npMod (mcLayer.wdir + uniformDraw (-2) 1 (1/2)) 360 ∧
     (0 ≤ (1:ℝ)/2 → (1:ℝ)/2 ≤ 1 → -2 ≤ (1:ℝ) →
       -2 ≤ uniformDraw (-2) 1 (1/2) ∧ uniformDraw (-2) 1 (1/2) ≤ 1) ∧
     (∀ (ι : Type) (uE uN : ι → ℝ) (g : Grid3 ι) (c : ι),
       (0 ≤ uE c → uE c ≤ 1 →
         |(perturbGridMC 2 uE uN g).weast c - g.weast c| ≤ 2) ∧
       (0 ≤ uN c → uN c ≤ 1 →
         |(perturbGridMC 2 uE uN g).wnorth c - g.wnorth c| ≤ 2) ∧
       (perturbGridMC 2 uE uN g).wup c = g.wup c)) :=
  ⟨⟨by norm_num, by norm_num, by norm_num⟩,
   c6_wind_perturbation 2 1 (1/2) (1/2) mcLayer (by norm_num) (by norm_num) (by norm_num)⟩

/-! ## Claim C7: mass decrease -/

/-- A still, homogeneous test atmosphere (no wind in the ECI frame,
density 1.2 kg/m³, 280 K). -/
noncomputable def atmStill : V3 → ℝ → AtmOut := fun _ _ => ⟨v0, 1.2, 280⟩

/-- A constant test drag model. -/
noncomputable def dragConst : ℝ → ℝ → ℝ → ℝ → ℝ := fun _ _ _ _ => 1

/-- A concrete 1 kg chondritic test state 20 km above the equator, moving
at 100 m/s. -/
noncomputable def Xsample : DFState :=
  ⟨⟨aWGS + 20000, 0, 0⟩, ⟨100, 0, 0⟩, 1, 3500, 1.21, 2e-8⟩

/-- C7: the dynamics' mass rate is strictly negative at every state whose
mass-loss coefficient, shape factor, mass and bulk density are positive,
in any atmosphere of positive density, whenever the velocity differs from
the local wind. Along an exact solution of the dynamics these conditions
make the mass strictly decreasing, so consecutive accepted samples carry
strictly decreasing masses. -/
theorem c7_mass_strictly_decreasing (atm : V3 → ℝ → AtmOut)
    (drag : ℝ → ℝ → ℝ → ℝ → ℝ) (t t0 : ℝ) (X : DFState)
    (hc : 0 < X.c_ml) (hA : 0 < X.shape) (hm : 0 < X.mass) (hrho : 0 < X.rho)
    (hra : 0 < (atm X.pos (t0 + t / (24*60*60))).rho_a)
    (hv : X.vel ≠ (atm X.pos (t0 + t / (24*60*60))).wind) :
    (earthDynamics atm drag t X t0).mass < 0 := by
  show massRate X.c_ml X.shape (atm X.pos (t0 + t / (24*60*60))).rho_a
      (norm3 (V3.sub X.vel (atm X.pos (t0 + t / (24*60*60))).wind)) X.mass X.rho < 0
  set o := atm X.pos (t0 + t / (24*60*60))
  have hvrel : V3.sub X.vel o.wind ≠ v0 := by
    intro hE
    apply hv
    have hx := congrArg V3.x hE
    have hy := congrArg V3.y hE
    have hz := congrArg V3.z hE
    simp only [V3.sub, v0, sub_eq_zero] at hx hy hz
    exact V3.ext hx hy hz
  have hvpos : 0 < norm3 (V3.sub X.vel o.wind) := norm3_pos _ hvrel
  unfold massRate
  apply div_neg_of_neg_of_pos
  · have hnum : 0 < X.c_ml * X.shape * o.rho_a *
        norm3 (V3.sub X.vel o.wind) ^ 3 * X.mass ^ ((2:ℝ)/3) :=
      mul_pos (mul_pos (mul_pos (mul_pos hc hA) hra) (pow_pos hvpos 3))
        (Real.rpow_pos_of_pos hm _)
    have he : -X.c_ml * X.shape * o.rho_a *
        norm3 (V3.sub X.vel o.wind) ^ 3 * X.mass ^ ((2:ℝ)/3)
        = -(X.c_ml * X.shape * o.rho_a *
            norm3 (V3.sub X.vel o.wind) ^ 3 * X.mass ^ ((2:ℝ)/3)) := by ring
    rw [he]
    exact neg_lt_zero.mpr hnum
  · exact mul_pos two_pos (Real.rpow_pos_of_pos hrho _)

/-- C7 witness: the mass rate is strictly negative at the concrete test
state in the still test atmosphere. -/
theorem c7_mass_strictly_decreasing_witness :
    ((0:ℝ) < Xsample.c_ml ∧ (0:ℝ) < Xsample.shape ∧ (0:ℝ) < Xsample.mass ∧
     (0:ℝ) < Xsample.rho ∧
     0 < (atmStill Xsample.pos (2451545 + 0 / (24*60*60))).rho_a ∧
     Xsample.vel ≠ (atmStill Xsample.pos (2451545 + 0 / (24*60*60))).wind) ∧
    (earthDynamics atmStill dragConst 0 Xsample 2451545).mass < 0 :=
  ⟨⟨by norm_num [Xsample], by norm_num [Xsample], by norm_num [Xsample],
    by norm_num [Xsample], by norm_num [atmStill],
    by simp [Xsample, atmStill, v0, V3.mk.injEq]⟩,
   c7_mass_strictly_decreasing atmStill dragConst 0 2451545 Xsample
     (by norm_num [Xsample]) (by norm_num [Xsample]) (by norm_num [Xsample])
     (by norm_num [Xsample]) (by norm_num [atmStill])
     (by simp [Xsample, atmStill, v0, V3.mk.injEq])⟩

/-! ## Claim C2: recorded mass threshold -/

/-- `soloutTerm` over the equatorial plane reduces to a comparison against
`aWGS + h_ground` (the latitude of an equatorial position is 0). -/
theorem soloutTerm_equatorial (hg t0 : ℝ) (s : Sample) (hz : s.state.pos.z = 0) :
    soloutTerm hg t0 s ↔ (norm3 s.state.pos < aWGS + hg ∨ s.state.mass < 1e-3) := by
  simp only [soloutTerm]
  rw [ECEF2LLH_lat_of_z_eq_zero _ (by rw [ECI2ECEF_pos_z]; exact hz), EarthRadius_zero]

/-- A 1 kg sample 10 km above the equator (not terminal). -/
noncomputable def sampleA : Sample :=
  ⟨0, ⟨⟨aWGS + 10000, 0, 0⟩, ⟨0, 0, -100⟩, 1, 3500, 1.21, 2e-8⟩⟩

/-- A 0.5 g sample 5 km above the equator (the dust terminator fires). -/
noncomputable def sampleB : Sample :=
  ⟨1, ⟨⟨aWGS + 5000, 0, 0⟩, ⟨0, 0, -100⟩, 5e-4, 3500, 1.21, 2e-8⟩⟩

theorem solout_sampleA_false : ¬ soloutTerm 0 2451545 sampleA := by
  rw [soloutTerm_equatorial _ _ _ rfl]
  push_neg
  constructor
  · show aWGS + 0 ≤ norm3 ⟨aWGS + 10000, 0, 0⟩
    rw [norm3_axis _ (by norm_num [aWGS])]
    norm_num [aWGS]
  · show (1e-3:ℝ) ≤ (1:ℝ)
    norm_num

theorem solout_sampleB_true : soloutTerm 0 2451545 sampleB := by
  rw [soloutTerm_equatorial _ _ _ rfl]
  right
  show (5e-4:ℝ) < 1e-3
  norm_num

/-- C2 (counterexample): `solout` appends the accepted step to the
recorded trajectory *before* checking the dust threshold, so the
sub-threshold step is itself committed: on the accepted-step stream
`[sampleA, sampleB]` with `sampleB.mass = 0.5 g < 1 g`, the recorded
trajectory is `[sampleA, sampleB]` and its final sample carries a
sub-threshold mass, contradicting "no recorded sample carries a
sub-threshold mass" / "terminated before that step is committed". -/
theorem c2_counterexample :
    recordLoop (soloutTerm 0 2451545) [sampleA, sampleB] = [sampleA, sampleB] ∧
    sampleB.state.mass < 1e-3 := by
  constructor
  · simp only [recordLoop, if_neg solout_sampleA_false, if_pos solout_sampleB_true]
  · show (5e-4:ℝ) < 1e-3
    norm_num

theorem recordLoop_dropLast_not_term (term : Sample → Prop) :
    ∀ (steps : List Sample) (s : Sample),
      s ∈ (recordLoop term steps).dropLast → ¬ term s := by
  intro steps
  induction steps with
  | nil => intro s hs; simp [recordLoop] at hs
  | cons a rest ih =>
    intro s hs
    by_cases h : term a
    · rw [show recordLoop term (a :: rest) = [a] by
        simp only [recordLoop, if_pos h]] at hs
      simp at hs
    · rw [show recordLoop term (a :: rest) = a :: recordLoop term rest by
        simp only [recordLoop, if_neg h]] at hs
      rcases hrec : recordLoop term rest with _ | ⟨b, l⟩
      · rw [hrec] at hs; simp at hs
      · rw [hrec, List.dropLast_cons₂] at hs
        rcases List.mem_cons.mp hs with h1 | h1
        · rw [h1]; exact h
        · exact ih s (by rw [hrec]; exact h1)

/-- C2 (amended): every recorded sample *except possibly the final one*
has mass at least 1e-3 kg. When a step breaches the dust threshold the
integration terminates at that step, but the breaching step is recorded
first, so the single sub-threshold sample that may appear is the final
one. -/
theorem c2_recorded_mass (hg t0 : ℝ) (steps : List Sample) (s : Sample)
    (hs : s ∈ (recordLoop (soloutTerm hg t0) steps).dropLast) :
    1e-3 ≤ s.state.mass := by
  have h := recordLoop_dropLast_not_term (soloutTerm hg t0) steps s hs
  simp only [soloutTerm] at h
  push_neg at h
  exact h.2

/-- C2 witness: the non-final recorded sample of the concrete run has mass
at least 1 g. -/
theorem c2_recorded_mass_witness :
    sampleA ∈ (recordLoop (soloutTerm 0 2451545) [sampleA, sampleB]).dropLast ∧
    1e-3 ≤ sampleA.state.mass := by
  have hmem : sampleA ∈ (recordLoop (soloutTerm 0 2451545) [sampleA, sampleB]).dropLast := by
    simp only [recordLoop, if_neg solout_sampleA_false, if_pos solout_sampleB_true]
    simp
  exact ⟨hmem, c2_recorded_mass 0 2451545 [sampleA, sampleB] sampleA hmem⟩

/-! ## Claim C10: single-sample trajectories -/

/-- A single sample sitting 1 km below the equatorial ground radius. -/
noncomputable def sBelow : Sample :=
  ⟨2451545, ⟨⟨aWGS - 1000, 0, 0⟩, v0, 1, 3500, 1.21, 2e-8⟩⟩

/-- C10: when the recorded trajectory holds exactly one sample the ground
backtrack is skipped and the sample is returned unchanged; in particular a
single sample lying below the modelled ground surface (here 1 km below the
ground radius at its latitude, with `h_ground = 0`) is emitted as is. -/
theorem c10_single_sample :
    (∀ (hg : ℝ) (s : Sample), backtrackDFN hg [s] = [s]) ∧
    (backtrackDFN 0 [sBelow] = [sBelow] ∧
     norm3 sBelow.state.pos <
       EarthRadius ((ECEF2LLH (ECI2ECEF_pos sBelow.state.pos sBelow.t)).x) + 0) := by
  have hsingle : ∀ (hg : ℝ) (s : Sample), backtrackDFN hg [s] = [s] := by
    intro hg s
    unfold backtrackDFN
    rw [if_neg (by simp : ¬ (2 ≤ ([s] : List Sample).length))]
  refine ⟨hsingle, hsingle 0 sBelow, ?_⟩
  rw [ECEF2LLH_lat_of_z_eq_zero _ rfl, EarthRadius_zero]
  show norm3 ⟨aWGS - 1000, 0, 0⟩ < aWGS + 0
  rw [norm3_axis _ (by norm_num [aWGS])]
  norm_num [aWGS]

/-! ## Claim C1: the ground backtrack lands on the surface -/

theorem append_pair_getLastD (xs : List Sample) (p l : Sample) :
    (xs ++ [p, l]).getLastD dSample = l := by
  simp [List.getLastD_eq_getLast?]

theorem append_pair_dropLast (xs : List Sample) (p l : Sample) :
    (xs ++ [p, l]).dropLast = xs ++ [p] := by
  rw [show xs ++ [p, l] = (xs ++ [p]) ++ [l] by simp]
  exact List.dropLast_concat

theorem append_one_getLastD (xs : List Sample) (p : Sample) :
    (xs ++ [p]).getLastD dSample = p := by
  simp [List.getLastD_eq_getLast?]

/-- The position of a backtracked sample when the last two positions are
scalar multiples of a common direction. -/
theorem lerpSample_pos_collinear (p l : Sample) (u : V3) (α β f : ℝ)
    (hp : p.state.pos = V3.smul α u) (hl : l.state.pos = V3.smul β u) :
    (lerpSample p l f).state.pos = V3.smul (α + f * (β - α)) u := by
  show V3.add p.state.pos (V3.smul f (V3.sub l.state.pos p.state.pos))
      = V3.smul (α + f * (β - α)) u
  rw [hp, hl]
  unfold V3.add V3.sub V3.smul
  ext <;> ring

theorem norm3_yaxis (r : ℝ) (hr : 0 ≤ r) : norm3 ⟨0, r, 0⟩ = r := by
  unfold norm3
  have h : (0:ℝ) ^ 2 + r ^ 2 + 0 ^ 2 = r ^ 2 := by ring
  rw [h, Real.sqrt_sq hr]

/-- The previous-to-last sample of the chord counterexample: 1 km above
the equatorial surface on the x-axis. -/
noncomputable def cPrev : Sample :=
  ⟨2451545, ⟨⟨aWGS + 1000, 0, 0⟩, ⟨0, 0, -100⟩, 1, 3500, 1.21, 2e-8⟩⟩

/-- The last sample of the chord counterexample: 1 km below the
equatorial surface on the y-axis, so the final accepted step is a long
transverse chord rather than a radial descent. -/
noncomputable def cLast : Sample :=
  ⟨2451545.00001, ⟨⟨0, aWGS - 1000, 0⟩, ⟨0, 0, -100⟩, 0.99, 3500, 1.21, 2e-8⟩⟩

/-- C1 (counterexample): the claim's universal surface property fails on
the embedded backtrack. The backtrack interpolates the *position vector*
linearly, so the emitted radius is the norm of a chord point, not the
linear interpolation of the radii; the deviation is the chord defect,
second order in the transverse displacement of the final step, and the
code bounds the final step only in time (`dt_max`), not in displacement.
On the recorded two-sample trajectory `[cPrev, cLast]` (radii
`aWGS ± 1000` m, a quarter-turn apart) the backtrack computes
`f = 1/2` and emits the chord midpoint, whose radius misses
`EarthRadius(lat_final) + h_ground` by far more than 1 m. -/
theorem c1_counterexample :
    backtrackDFN 0 [cPrev, cLast] = [cPrev, lerpSample cPrev cLast (1/2)] ∧
    1 < |norm3 (((backtrackDFN 0 [cPrev, cLast]).getLastD dSample).state.pos)
        - (EarthRadius ((ECEF2LLH (ECI2ECEF_pos
             ((backtrackDFN 0 [cPrev, cLast]).getLastD dSample).state.pos
             ((backtrackDFN 0 [cPrev, cLast]).getLastD dSample).t)).x) + 0)| := by
  have hlat : (ECEF2LLH (ECI2ECEF_pos cLast.state.pos cLast.t)).x = 0 :=
    ECEF2LLH_lat_of_z_eq_zero _ (by rw [ECI2ECEF_pos_z]; rfl)
  have hnp : norm3 cPrev.state.pos = aWGS + 1000 := by
    show norm3 ⟨aWGS + 1000, 0, 0⟩ = aWGS + 1000
    exact norm3_axis _ (by norm_num [aWGS])
  have hnl : norm3 cLast.state.pos = aWGS - 1000 := by
    show norm3 ⟨0, aWGS - 1000, 0⟩ = aWGS - 1000
    exact norm3_yaxis _ (by norm_num [aWGS])
  have hF : (norm3 cPrev.state.pos -
        (EarthRadius ((ECEF2LLH (ECI2ECEF_pos cLast.state.pos cLast.t)).x) + 0)) /
      (norm3 cPrev.state.pos - norm3 cLast.state.pos) = 1/2 := by
    rw [hlat, EarthRadius_zero, hnp, hnl]
    norm_num [aWGS]
  have heq0 : backtrackDFN 0 ([] ++ [cPrev, cLast])
      = ([] : List Sample) ++ [cPrev] ++ [lerpSample cPrev cLast
          ((norm3 cPrev.state.pos -
            (EarthRadius ((ECEF2LLH (ECI2ECEF_pos cLast.state.pos cLast.t)).x) + 0)) /
           (norm3 cPrev.state.pos - norm3 cLast.state.pos))] := by
    unfold backtrackDFN
    rw [if_pos (by simp : 2 ≤ (([] : List Sample) ++ [cPrev, cLast]).length),
      append_pair_getLastD, append_pair_dropLast, append_one_getLastD]
  rw [hF] at heq0
  have heq : backtrackDFN 0 [cPrev, cLast] = [cPrev, lerpSample cPrev cLast (1/2)] :=
    heq0
  have hfinpos : (lerpSample cPrev cLast (1/2)).state.pos
      = ⟨(aWGS + 1000) / 2, (aWGS - 1000) / 2, 0⟩ := by
    show V3.add ⟨aWGS + 1000, 0, 0⟩
        (V3.smul (1/2) (V3.sub ⟨0, aWGS - 1000, 0⟩ ⟨aWGS + 1000, 0, 0⟩)) = _
    unfold V3.add V3.sub V3.smul
    simp only [V3.mk.injEq]
    refine ⟨by ring, by ring, by ring⟩
  refine ⟨heq, ?_⟩
  rw [heq,
    show ([cPrev, lerpSample cPrev cLast (1/2)] : List Sample).getLastD dSample
        = lerpSample cPrev cLast (1/2) by simp [List.getLastD_eq_getLast?],
    hfinpos,
    ECEF2LLH_lat_of_z_eq_zero _ (by rw [ECI2ECEF_pos_z]), EarthRadius_zero]
  have hlt : norm3 ⟨(aWGS + 1000) / 2, (aWGS - 1000) / 2, 0⟩ < aWGS - 1 := by
    unfold norm3
    rw [Real.sqrt_lt' (by norm_num [aWGS] : (0:ℝ) < aWGS - 1)]
    norm_num [aWGS]
  rw [lt_abs]
  right
  linarith

/-- C1 (amended): the ground backtrack of `Propagate` replaces the last
recorded sample by the linear interpolation of the last two with fraction
`f = (|p_prev| - r_end) / (|p_prev| - |p_last|)`, where
`r_end = EarthRadius(lat_last) + h_ground` is computed from the last
sample (first conjunct: every trajectory with at least two samples whose
last two radii differ). This makes the linearly interpolated *radius*
`(1-f)*|p_prev| + f*|p_last|` equal `r_end` exactly (second conjunct).
The emitted position itself lies exactly on the modelled surface,
`|pos_eci(t_final)| = EarthRadius(lat_final) + h_ground` — in particular
within 1 m — when the final step is radial (third conjunct, stated on an
equatorial ray, along which the latitude is constant); for a final step
with a large transverse chord the emitted radius can miss the surface by
more than 1 m, as the counterexample shows. -/
theorem c1_backtrack_interpolation (hg : ℝ) (xs : List Sample) (p l : Sample)
    (hne : norm3 p.state.pos ≠ norm3 l.state.pos) :
    backtrackDFN hg (xs ++ [p, l])
      = xs ++ [p] ++ [lerpSample p l
          ((norm3 p.state.pos -
            (EarthRadius ((ECEF2LLH (ECI2ECEF_pos l.state.pos l.t)).x) + hg)) /
           (norm3 p.state.pos - norm3 l.state.pos))] ∧
    (1 - (norm3 p.state.pos -
            (EarthRadius ((ECEF2LLH (ECI2ECEF_pos l.state.pos l.t)).x) + hg)) /
           (norm3 p.state.pos - norm3 l.state.pos)) * norm3 p.state.pos
      + ((norm3 p.state.pos -
            (EarthRadius ((ECEF2LLH (ECI2ECEF_pos l.state.pos l.t)).x) + hg)) /
           (norm3 p.state.pos - norm3 l.state.pos)) * norm3 l.state.pos
      = EarthRadius ((ECEF2LLH (ECI2ECEF_pos l.state.pos l.t)).x) + hg ∧
    (∀ (u : V3) (α β : ℝ), norm3 u = 1 → u.z = 0 →
      p.state.pos = V3.smul α u → l.state.pos = V3.smul β u →
      0 < α → 0 < β → 0 ≤ aWGS + hg →
      norm3 (((backtrackDFN hg (xs ++ [p, l])).getLastD dSample).state.pos)
        = EarthRadius ((ECEF2LLH (ECI2ECEF_pos
            ((backtrackDFN hg (xs ++ [p, l])).getLastD dSample).state.pos
            ((backtrackDFN hg (xs ++ [p, l])).getLastD dSample).t)).x) + hg) := by
  have hlen : 2 ≤ (xs ++ [p, l]).length := by simp
  have heq : backtrackDFN hg (xs ++ [p, l])
      = xs ++ [p] ++ [lerpSample p l
          ((norm3 p.state.pos -
            (EarthRadius ((ECEF2LLH (ECI2ECEF_pos l.state.pos l.t)).x) + hg)) /
           (norm3 p.state.pos - norm3 l.state.pos))] := by
    unfold backtrackDFN
    rw [if_pos hlen, append_pair_getLastD, append_pair_dropLast, append_one_getLastD]
  have hsub : norm3 p.state.pos - norm3 l.state.pos ≠ 0 := sub_ne_zero.mpr hne
  refine ⟨heq, ?_, ?_⟩
  · field_simp
    ring
  · intro u α β hu1 huz hp hl hα hβ hhg
    have hnp : norm3 p.state.pos = α := by
      rw [hp, norm3_smul, hu1, mul_one, abs_of_pos hα]
    have hnl : norm3 l.state.pos = β := by
      rw [hl, norm3_smul, hu1, mul_one, abs_of_pos hβ]
    have hzl : l.state.pos.z = 0 := by
      rw [hl]; show β * u.z = 0; rw [huz, mul_zero]
    have hlat : (ECEF2LLH (ECI2ECEF_pos l.state.pos l.t)).x = 0 :=
      ECEF2LLH_lat_of_z_eq_zero _ (by rw [ECI2ECEF_pos_z]; exact hzl)
    have hαβ : α - β ≠ 0 := by rw [← hnp, ← hnl]; exact hsub
    rw [heq, hlat, EarthRadius_zero, hnp, hnl]
    rw [show xs ++ [p] ++ [lerpSample p l ((α - (aWGS + hg)) / (α - β))]
        = (xs ++ [p]) ++ [lerpSample p l ((α - (aWGS + hg)) / (α - β))] from rfl,
      append_one_getLastD]
    set f := (α - (aWGS + hg)) / (α - β) with hf
    have hcoef : α + f * (β - α) = aWGS + hg := by
      rw [hf]
      field_simp
      ring
    have hposfin : (lerpSample p l f).state.pos = V3.smul (aWGS + hg) u := by
      rw [lerpSample_pos_collinear p l u α β f hp hl, hcoef]
    have hzfin : (lerpSample p l f).state.pos.z = 0 := by
      rw [hposfin]; show (aWGS + hg) * u.z = 0; rw [huz, mul_zero]
    rw [ECEF2LLH_lat_of_z_eq_zero _ (by rw [ECI2ECEF_pos_z]; exact hzfin),
      EarthRadius_zero, hposfin, norm3_smul, hu1, mul_one, abs_of_nonneg hhg]

/-- The previous-to-last test sample, 1 km above the equatorial surface. -/
noncomputable def sPrev : Sample :=
  ⟨2451545, ⟨⟨aWGS + 1000, 0, 0⟩, ⟨0, 0, -100⟩, 1, 3500, 1.21, 2e-8⟩⟩

/-- The last test sample, 1 km below the equatorial surface. -/
noncomputable def sLast : Sample :=
  ⟨2451545.0001, ⟨⟨aWGS - 1000, 0, 0⟩, ⟨0, 0, -100⟩, 0.99, 3500, 1.21, 2e-8⟩⟩

/-- C1 witness: the amended statement at the concrete two-sample radial
descent `sPrev → sLast` crossing the equatorial surface. -/
theorem c1_backtrack_interpolation_witness :
    norm3 sPrev.state.pos ≠ norm3 sLast.state.pos ∧
    (backtrackDFN 0 ([] ++ [sPrev, sLast])
      = [] ++ [sPrev] ++ [lerpSample sPrev sLast
          ((norm3 sPrev.state.pos -
            (EarthRadius ((ECEF2LLH (ECI2ECEF_pos sLast.state.pos sLast.t)).x) + 0)) /
           (norm3 sPrev.state.pos - norm3 sLast.state.pos))] ∧
     (1 - (norm3 sPrev.state.pos -
            (EarthRadius ((ECEF2LLH (ECI2ECEF_pos sLast.state.pos sLast.t)).x) + 0)) /
           (norm3 sPrev.state.pos - norm3 sLast.state.pos)) * norm3 sPrev.state.pos
      + ((norm3 sPrev.state.pos -
            (EarthRadius ((ECEF2LLH (ECI2ECEF_pos sLast.state.pos sLast.t)).x) + 0)) /
           (norm3 sPrev.state.pos - norm3 sLast.state.pos)) * norm3 sLast.state.pos
      = EarthRadius ((ECEF2LLH (ECI2ECEF_pos sLast.state.pos sLast.t)).x) + 0 ∧
     (∀ (u : V3) (α β : ℝ), norm3 u = 1 → u.z = 0 →
      sPrev.state.pos = V3.smul α u → sLast.state.pos = V3.smul β u →
      0 < α → 0 < β → 0 ≤ aWGS + 0 →
      norm3 (((backtrackDFN 0 ([] ++ [sPrev, sLast])).getLastD dSample).state.pos)
        = EarthRadius ((ECEF2LLH (ECI2ECEF_pos
            ((backtrackDFN 0 ([] ++ [sPrev, sLast])).getLastD dSample).state.pos
            ((backtrackDFN 0 ([] ++ [sPrev, sLast])).getLastD dSample).t)).x) + 0)) := by
  have hne : norm3 sPrev.state.pos ≠ norm3 sLast.state.pos := by
    have h1 : norm3 sPrev.state.pos = aWGS + 1000 := by
      show norm3 ⟨aWGS + 1000, 0, 0⟩ = aWGS + 1000
      exact norm3_axis _ (by norm_num [aWGS])
    have h2 : norm3 sLast.state.pos = aWGS - 1000 := by
      show norm3 ⟨aWGS - 1000, 0, 0⟩ = aWGS - 1000
      exact norm3_axis _ (by norm_num [aWGS])
    rw [h1, h2]
    norm_num [aWGS]
  exact ⟨hne, c1_backtrack_interpolation 0 [] sPrev sLast hne⟩

/-! ## Claims C3 and C4: the 1-D atmosphere query -/

theorem eraAngle_ref : eraAngle 2451545 = 0 := by
  unfold eraAngle; ring

theorem ECI2ECEF_pos_ref (v : V3) : ECI2ECEF_pos v 2451545 = v := by
  unfold ECI2ECEF_pos
  rw [eraAngle_ref, Real.cos_zero, Real.sin_zero]
  ext <;> simp

/-- The concrete ECI query position: 21 km above the equator. -/
noncomputable def qC : V3 := ⟨aWGS + 21000, 0, 0⟩

theorem ECEF2LLH_qC : ECEF2LLH qC = ⟨0, 0, 21000⟩ := by
  rw [show qC = ⟨aWGS + 21000, 0, 0⟩ from rfl,
    ECEF2LLH_xaxis (aWGS + 21000) (by norm_num [aWGS])]
  simp [V3.mk.injEq]

/-- The geodetic height of the query, computed as the claim states
(ECI→ECEF, then ECEF→LLH): 21 000 m. -/
theorem geodetic_height_qC : (ECEF2LLH (ECI2ECEF_pos qC 2451545)).z = 21000 := by
  rw [ECI2ECEF_pos_ref, ECEF2LLH_qC]

/-- The height `AtmosphericModel` actually uses for the sounding lookup
(`ECEF2LLH` applied twice to the ECI query) is below `-aWGS`. -/
theorem code_height_qC : (ECEF2LLH (ECEF2LLH qC)).z ≤ -aWGS := by
  rw [ECEF2LLH_qC]
  exact ECEF2LLH_z_zaxis_le 21000

/-- Bottom layer of the C4 test sounding (temperature deliberately set to
a recognisable 9999 K). -/
def cLayerBot : Layer := ⟨1000, 9999, 90000, 0.5, 10, 90⟩

/-- Top layer of the C4 test sounding (top height 20 000 m). -/
def cLayerTop : Layer := ⟨20000, 5555, 5000, 0.1, 30, 270⟩

/-- The C4 test sounding: heights 1 000 m to 20 000 m. -/
def cSounding : List Layer := [cLayerBot, cLayerTop]

/-- Bottom layer of the C3 test sounding (temperature 7777 K). -/
def c3LayerBot : Layer := ⟨1000, 7777, 90000, 0.5, 10, 90⟩

/-- Top layer of the C3 test sounding (top height 30 000 m, so the query
height 21 000 m lies inside the sounding's range). -/
def c3LayerTop : Layer := ⟨30000, 5555, 5000, 0.1, 30, 270⟩

/-- The C3 test sounding: heights 1 000 m to 30 000 m. -/
def cSounding3 : List Layer := [c3LayerBot, c3LayerTop]

theorem maxHeight_cSounding : maxHeight cSounding = 20000 := by
  simp only [maxHeight, cSounding, topLayer]
  rw [if_neg (by norm_num [cLayerBot, cLayerTop])]
  norm_num [cLayerTop]

theorem minHeight_cSounding : minHeight cSounding = 1000 := by
  simp only [minHeight, cSounding, bottomLayer]
  rw [if_pos (by norm_num [cLayerBot, cLayerTop])]
  norm_num [cLayerBot]

theorem bottomLayer_cSounding : bottomLayer cSounding = cLayerBot := by
  simp only [cSounding, bottomLayer]
  rw [if_pos (by norm_num [cLayerBot, cLayerTop])]

theorem maxHeight_cSounding3 : maxHeight cSounding3 = 30000 := by
  simp only [maxHeight, cSounding3, topLayer]
  rw [if_neg (by norm_num [c3LayerBot, c3LayerTop])]
  norm_num [c3LayerTop]

theorem minHeight_cSounding3 : minHeight cSounding3 = 1000 := by
  simp only [minHeight, cSounding3, bottomLayer]
  rw [if_pos (by norm_num [c3LayerBot, c3LayerTop])]
  norm_num [c3LayerBot]

theorem bottomLayer_cSounding3 : bottomLayer cSounding3 = c3LayerBot := by
  simp only [cSounding3, bottomLayer]
  rw [if_pos (by norm_num [c3LayerBot, c3LayerTop])]

/-- A concrete stand-in for the NRLMSISE-00 reference model: constant
stratospheric values (216.65 K, 5474.9 Pa, 0.0889 kg/m³). -/
noncomputable def refTest : V3 → ℝ → ℝ × ℝ × ℝ := fun _ _ => (216.65, 5474.9, 0.0889)

/-- A concrete stand-in for the interpolation kernel. -/
noncomputable def interpTest : List (ℝ × ℝ) → ℝ → ℝ := fun _ _ => 0

/-- `AtmosphericModel` with an empty sounding: the reference-model branch,
returning the reference temperature and density at the geodetic position
of the query and the pure Earth-rotation wind. -/
theorem AtmosphericModel_empty (nrl : V3 → ℝ → ℝ × ℝ × ℝ)
    (interp : List (ℝ × ℝ) → ℝ → ℝ) (q : V3) (t : ℝ) :
    AtmosphericModel nrl interp [] q t
      = ⟨earthRotVel q t, (nrl (ECEF2LLH (ECI2ECEF_pos q t)) t).2.2,
         (nrl (ECEF2LLH (ECI2ECEF_pos q t)) t).1⟩ := by
  simp only [AtmosphericModel]
  rw [if_pos trivial]

/-- In the sounding branch, when the internally computed height is neither
above the top nor at or above the bottom, `AtmosphericModel` returns the
bottom layer's temperature. -/
theorem AtmosphericModel_temp_bottom (nrl : V3 → ℝ → ℝ × ℝ × ℝ)
    (interp : List (ℝ × ℝ) → ℝ → ℝ) (S : List Layer) (q : V3) (t : ℝ)
    (hne : S ≠ [])
    (h1 : ¬ (maxHeight S < (ECEF2LLH (ECEF2LLH q)).z))
    (h2 : ¬ (minHeight S ≤ (ECEF2LLH (ECEF2LLH q)).z)) :
    (AtmosphericModel nrl interp S q t).temp = (bottomLayer S).tempK := by
  simp only [AtmosphericModel]
  rw [if_neg hne, if_neg h1, if_neg h2]

/-- C4 (amended): in the `DFN_DarkFlight.py` variant, a query whose
geodetic height is above the sounding top is answered by the reference
model: `EarthDynamics` routes it to the empty-sounding branch, whose
temperature and density are the reference model's values at the geodetic
position, and whose wind is the Earth-rotation velocity alone. (The
`DarkFlight_main.py` variant lacks the guard and clamps instead, as the
counterexample shows.) -/
theorem c4_above_top_reference (nrl : V3 → ℝ → ℝ × ℝ × ℝ)
    (interp : List (ℝ × ℝ) → ℝ → ℝ) (S : List Layer) (q : V3) (t : ℝ)
    (habove : maxHeight S < (ECEF2LLH (ECI2ECEF_pos q t)).z) :
    dfnAtmSelect1D nrl interp S q t = AtmosphericModel nrl interp [] q t ∧
    (dfnAtmSelect1D nrl interp S q t).temp
      = (nrl (ECEF2LLH (ECI2ECEF_pos q t)) t).1 ∧
    (dfnAtmSelect1D nrl interp S q t).rho_a
      = (nrl (ECEF2LLH (ECI2ECEF_pos q t)) t).2.2 ∧
    (dfnAtmSelect1D nrl interp S q t).wind = earthRotVel q t := by
  have h : dfnAtmSelect1D nrl interp S q t = AtmosphericModel nrl interp [] q t := by
    simp only [dfnAtmSelect1D]
    rw [if_pos habove]
  rw [h, AtmosphericModel_empty]
  exact ⟨rfl, rfl, rfl, rfl⟩

/-- C4 witness: the DFN-variant selection at the concrete query 1 km above
the test sounding's top returns the reference model's values. -/
theorem c4_above_top_reference_witness :
    maxHeight cSounding < (ECEF2LLH (ECI2ECEF_pos qC 2451545)).z ∧
    (dfnAtmSelect1D refTest interpTest cSounding qC 2451545
        = AtmosphericModel refTest interpTest [] qC 2451545 ∧
     (dfnAtmSelect1D refTest interpTest cSounding qC 2451545).temp
        = (refTest (ECEF2LLH (ECI2ECEF_pos qC 2451545)) 2451545).1 ∧
     (dfnAtmSelect1D refTest interpTest cSounding qC 2451545).rho_a
        = (refTest (ECEF2LLH (ECI2ECEF_pos qC 2451545)) 2451545).2.2 ∧
     (dfnAtmSelect1D refTest interpTest cSounding qC 2451545).wind
        = earthRotVel qC 2451545) := by
  have habove : maxHeight cSounding < (ECEF2LLH (ECI2ECEF_pos qC 2451545)).z := by
    rw [geodetic_height_qC, maxHeight_cSounding]
    norm_num
  exact ⟨habove, c4_above_top_reference refTest interpTest cSounding qC 2451545 habove⟩

/-- C4 (counterexample): the claim, citing the guard-free
`DarkFlight_main.py` call site and `AtmosphericModel` itself, asserts that
every above-top query is answered by the reference model. At the concrete
query (geodetic height 21 000 m, sounding top 20 000 m) the
`DarkFlight_main.py` sampler returns 9999 K — the (bottom) sounding
layer's temperature, reached through the internal double-conversion height
— and not the reference model's 216.65 K. -/
theorem c4_counterexample :
    (ECEF2LLH (ECI2ECEF_pos qC 2451545)).z = 21000 ∧
    maxHeight cSounding = 20000 ∧
    (mainAtmSelect1D refTest interpTest cSounding qC 2451545).temp = 9999 ∧
    (refTest (ECEF2LLH (ECI2ECEF_pos qC 2451545)) 2451545).1 = 216.65 ∧
    ((9999:ℝ) ≠ 216.65) := by
  have hA : (0:ℝ) < aWGS := by norm_num [aWGS]
  have hin := code_height_qC
  refine ⟨geodetic_height_qC, maxHeight_cSounding, ?_, rfl, by norm_num⟩
  show (AtmosphericModel refTest interpTest cSounding qC 2451545).temp = 9999
  rw [AtmosphericModel_temp_bottom refTest interpTest cSounding qC 2451545
      (by simp [cSounding])
      (by rw [maxHeight_cSounding]; linarith)
      (by rw [minHeight_cSounding]; linarith),
    bottomLayer_cSounding]
  norm_num [cLayerBot]

/-- C3: the claim says the 1-D sampler converts the ECI query to geodetic
LLH (ECI→ECEF, then ECEF→LLH) and interpolates the sounding at that
geodetic height. In the source (`df_functions.py` lines 77-78) the
sounding branch instead applies `ECEF2LLH` twice to the ECI position, so
the lookup height is a huge negative number: at the concrete query the
geodetic height is 21 000 m and lies inside the sounding's range
[1 000 m, 30 000 m], yet the sampler's internal height falls below the
bottom of the sounding and the returned temperature is the bottom layer's
7777 K instead of an interpolation at 21 000 m. -/
theorem c3_height_bug :
    (ECEF2LLH (ECI2ECEF_pos qC 2451545)).z = 21000 ∧
    minHeight cSounding3 ≤ 21000 ∧ (21000:ℝ) ≤ maxHeight cSounding3 ∧
    (ECEF2LLH (ECEF2LLH qC)).z < minHeight cSounding3 ∧
    (AtmosphericModel refTest interpTest cSounding3 qC 2451545).temp
      = c3LayerBot.tempK ∧
    c3LayerBot.tempK = 7777 := by
  have hA : (0:ℝ) < aWGS := by norm_num [aWGS]
  have hin := code_height_qC
  refine ⟨geodetic_height_qC,
    by rw [minHeight_cSounding3]; norm_num,
    by rw [maxHeight_cSounding3]; norm_num,
    by rw [minHeight_cSounding3]; linarith, ?_, rfl⟩
  rw [AtmosphericModel_temp_bottom refTest interpTest cSounding3 qC 2451545
      (by simp [cSounding3])
      (by rw [maxHeight_cSounding3]; linarith)
      (by rw [minHeight_cSounding3]; linarith),
    bottomLayer_cSounding3]
